import Mathlib

/-!
# Verification of moka-more's future `RowCache` layer

Shallow embedding of the read-through / single-flight / differentiated-expiry
cache layer from `src/future/cache.rs` and `src/future/builder.rs`, together
with the contract surface of the two external collaborators the spec names
(the concurrent expiring cache engine `moka::future::Cache`, and the
`sqlx`-backed point-lookup loader).

Conventions of the embedding:
- Rust `std::time::Duration` is modelled as a number of nanoseconds (`Nat`);
  instants are `Nat` ticks on the same scale.
- The database pool and the backing store are modelled as parameters: the
  pool is an opaque value of an arbitrary type, and one query episode of the
  backing store is a function `K → Except Err (Option V)` giving, for each
  key, the row found, the absence of a row, or a query failure.
- The moka engine is external code; its configuration surface and its
  entry/expiry/single-flight semantics are modelled from the spec's contract
  (spec sections 4.3, 5 and 9) as explicit state passing over an association
  list of entries.
-/

set_option autoImplicit false

namespace MokaMore

/-- Rust `std::time::Duration`, as a count of nanoseconds. -/
abbrev Duration := Nat

/-- `Duration::from_secs`. -/
def Duration.from_secs (s : Nat) : Duration := s * 1000000000

/-! ## `DefaultExpiry` (src/future/builder.rs, lines 268-300) -/

/-- `struct DefaultExpiry { ttl_for_none: Duration }`: the per-entry expiry
policy giving `None` entries their own (usually short) time to live. -/
structure DefaultExpiry where
  ttl_for_none : Duration
deriving DecidableEq, Repr

/-- `DefaultExpiry::new`. -/
def DefaultExpiry.new (ttl_for_none : Duration) : DefaultExpiry :=
  { ttl_for_none := ttl_for_none }

/-- `impl Default for DefaultExpiry`: 60 seconds for `None` entries. -/
def DefaultExpiry.default : DefaultExpiry :=
  DefaultExpiry.new (Duration.from_secs 60)

/-- `impl Expiry<K, Option<W>> for DefaultExpiry`, `expire_after_create`:
a present value gets no per-entry override (cache-wide TTL/TTI rules apply),
an absent value gets the configured `ttl_for_none`. -/
def DefaultExpiry.expire_after_create {K W : Type} (e : DefaultExpiry)
    (_key : K) (value : Option W) (_created_at : Nat) : Option Duration :=
  match value with
  | some _ => none
  | none => some e.ttl_for_none

/-! ## Query formatting (src/future/builder.rs, lines 89-101)

`RowCacheBuilder::for_table` builds its query with
`format!("SELECT * FROM {2}{0}{2} WHERE {2}{1}{2} = {3}", table, id, QUOTE,
PLACEHOLDER)`.  We model Rust's positional `format!` faithfully: a template
character list in which `\x7b`_n_`\x7d` is replaced by the _n_-th argument. -/

/-- Character-level rendering of a Rust positional format template: every
`\x7b`_n_`\x7d` (for a single digit _n_) is replaced by the characters of the
_n_-th argument string. -/
def renderFormatChars (args : List String) : List Char → List Char
  | [] => []
  | '\x7b' :: d :: '\x7d' :: rest =>
      (args.getD (d.toNat - 48) "").data ++ renderFormatChars args rest
  | c :: rest => c :: renderFormatChars args rest

/-- Render a Rust positional format template to a string. -/
def renderFormat (args : List String) (template : List Char) : String :=
  String.mk (renderFormatChars args template)

/-- The template of `for_table`'s `format!` call,
`"SELECT * FROM \x7b2\x7d\x7b0\x7d\x7b2\x7d WHERE \x7b2\x7d\x7b1\x7d\x7b2\x7d = \x7b3\x7d"`,
as an explicit character list. -/
def forTableTemplate : List Char :=
  ['S', 'E', 'L', 'E', 'C', 'T', ' ', '*', ' ', 'F', 'R', 'O', 'M', ' ',
   '\x7b', '2', '\x7d', '\x7b', '0', '\x7d', '\x7b', '2', '\x7d', ' ',
   'W', 'H', 'E', 'R', 'E', ' ',
   '\x7b', '2', '\x7d', '\x7b', '1', '\x7d', '\x7b', '2', '\x7d',
   ' ', '=', ' ', '\x7b', '3', '\x7d']

/-! ## The moka configuration surface

Modelled from the spec: the external Concurrent Expiring Cache Engine's
configuration (spec sections 4.3 and 6) — bounded capacity, cache-wide
time-to-live and time-to-idle, and a pluggable per-entry expiry policy
evaluated at entry creation.  `moka::future::CacheBuilder::expire_after`
replaces the currently configured policy. -/

/-- Modelled from the spec: `moka::future::CacheBuilder` configuration state
(capacity, cache-wide TTL/TTI, pluggable per-entry expiry policy). -/
structure CacheBuilder (K W : Type) where
  max_capacity : Nat
  ttl : Option Duration := none
  tti : Option Duration := none
  expiry : Option (K → Option W → Nat → Option Duration) := none

/-- Modelled from the spec: `moka::future::CacheBuilder::new`. -/
def CacheBuilder.new (K W : Type) (max_capacity : Nat) : CacheBuilder K W :=
  { max_capacity := max_capacity }

/-- Modelled from the spec: `CacheBuilder::time_to_live`. -/
def CacheBuilder.time_to_live {K W : Type} (b : CacheBuilder K W)
    (d : Duration) : CacheBuilder K W :=
  { b with ttl := some d }

/-- Modelled from the spec: `CacheBuilder::time_to_idle`. -/
def CacheBuilder.time_to_idle {K W : Type} (b : CacheBuilder K W)
    (d : Duration) : CacheBuilder K W :=
  { b with tti := some d }

/-- Modelled from the spec: `CacheBuilder::expire_after` installs a per-entry
expiry policy, replacing any previously configured one. -/
def CacheBuilder.expire_after {K W : Type} (b : CacheBuilder K W)
    (f : K → Option W → Nat → Option Duration) : CacheBuilder K W :=
  { b with expiry := some f }

/-- Modelled from the spec: the immutable configuration of a built
`moka::future::Cache`. -/
structure Cache (K W : Type) where
  max_capacity : Nat
  ttl : Option Duration
  tti : Option Duration
  expiry : Option (K → Option W → Nat → Option Duration)

/-- Modelled from the spec: `CacheBuilder::build` freezes the configuration. -/
def CacheBuilder.build {K W : Type} (b : CacheBuilder K W) : Cache K W :=
  { max_capacity := b.max_capacity, ttl := b.ttl, tti := b.tti,
    expiry := b.expiry }

/-! ## `QueryBuilder`, `RowCacheBuilder`, `RowCache`
(src/future/builder.rs lines 23-32, 48-207; src/future/cache.rs lines 38-43)

The Rust `QueryBuilder` trait carries two associated constants per database;
we model a trait instance as a record of the two strings.  The `DB`, `V` type
parameters of the Rust types only constrain row decoding, which lives inside
the backing-store loader here, so the embedded types carry the pool type `P`,
the key type `K` and the wrapped value type `W`. -/

/-- `trait QueryBuilder`: the identifier-quoting and placeholder constants of
one database backend. -/
structure QueryBuilder where
  QUOTE : String
  PLACEHOLDER : String
deriving DecidableEq, Repr

/-- `struct RowCache` (src/future/cache.rs): pool handle, frozen query string,
and the built moka cache (its immutable configuration; the mutable entry map
is threaded explicitly as an `EngineState`). -/
structure RowCache (P K W : Type) where
  pool : P
  query : String
  cache : Cache K W

/-- `struct RowCacheBuilder` (src/future/builder.rs): a moka `CacheBuilder`
plus the query string and the pool. -/
structure RowCacheBuilder (P K W : Type) where
  inner : CacheBuilder K W
  query : String
  pool : P

/-- `RowCacheBuilder::for_query`: store the query and the pool, and install
`DefaultExpiry::default()` as the per-entry expiry policy. -/
def RowCacheBuilder.for_query {P K W : Type} (max_capacity : Nat) (pool : P)
    (query : String) : RowCacheBuilder P K W :=
  { inner := (CacheBuilder.new K W max_capacity).expire_after
      (DefaultExpiry.default.expire_after_create),
    query := query,
    pool := pool }

/-- `RowCacheBuilder::for_table`: format the default point-lookup query from
the table name, the id column and the database's quoting constants, then
delegate to `for_query`. -/
def RowCacheBuilder.for_table {P K W : Type} (DB : QueryBuilder)
    (max_capacity : Nat) (pool : P) (table id : String) :
    RowCacheBuilder P K W :=
  RowCacheBuilder.for_query max_capacity pool
    (renderFormat [table, id, DB.QUOTE, DB.PLACEHOLDER] forTableTemplate)

/-- `RowCacheBuilder::new`: `for_table` with id column `"id"`. -/
def RowCacheBuilder.new {P K W : Type} (DB : QueryBuilder)
    (max_capacity : Nat) (pool : P) (table : String) : RowCacheBuilder P K W :=
  RowCacheBuilder.for_table DB max_capacity pool table "id"

/-- `RowCacheBuilder::time_to_live` (wrapper over the moka builder). -/
def RowCacheBuilder.time_to_live {P K W : Type} (b : RowCacheBuilder P K W)
    (d : Duration) : RowCacheBuilder P K W :=
  { b with inner := b.inner.time_to_live d }

/-- `RowCacheBuilder::time_to_idle` (wrapper over the moka builder). -/
def RowCacheBuilder.time_to_idle {P K W : Type} (b : RowCacheBuilder P K W)
    (d : Duration) : RowCacheBuilder P K W :=
  { b with inner := b.inner.time_to_idle d }

/-- `RowCacheBuilder::time_to_live_for_none`: installs
`DefaultExpiry::new(duration)` as the per-entry expiry policy of the inner
moka builder. -/
def RowCacheBuilder.time_to_live_for_none {P K W : Type}
    (b : RowCacheBuilder P K W) (d : Duration) : RowCacheBuilder P K W :=
  { b with inner := b.inner.expire_after ((DefaultExpiry.new d).expire_after_create) }

/-- `RowCacheBuilder::expire_after` (generated wrapper, src/future/builder.rs
line 264): installs a caller-supplied expiry policy on the inner builder. -/
def RowCacheBuilder.expire_after {P K W : Type} (b : RowCacheBuilder P K W)
    (f : K → Option W → Nat → Option Duration) : RowCacheBuilder P K W :=
  { b with inner := b.inner.expire_after f }

/-- `RowCacheBuilder::build`. -/
def RowCacheBuilder.build {P K W : Type} (b : RowCacheBuilder P K W) :
    RowCache P K W :=
  { pool := b.pool, query := b.query, cache := b.inner.build }

/-! ## The engine's entry store

Modelled from the spec: the external Concurrent Expiring Cache Engine's entry
storage and expiry semantics (spec sections 3, 4.3).  Each entry is a presence
marker (`Option W`) with its creation time, last access time, and the expiry
override computed by the per-entry policy at creation.  The engine's mutable
map is an association list, threaded explicitly through the operations. -/

/-- Modelled from the spec: one engine entry — the presence marker with its
creation/access metadata and the per-entry expiry override computed by the
policy at entry creation. -/
structure Entry (W : Type) where
  value : Option W
  created_at : Nat
  last_access : Nat
  expiry_override : Option Duration

/-- Modelled from the spec: the engine's entry map for all keys. -/
abbrev EngineState (K W : Type) := List (K × Entry W)

/-- Modelled from the spec: whether an entry is expired at time `now`.  An
expiry override from the per-entry policy fixes the entry's lifetime; absent
an override, the cache-wide time-to-live (from creation) and time-to-idle
(from last access) rules apply. -/
def Entry.expired {K W : Type} (cfg : Cache K W) (e : Entry W) (now : Nat) :
    Bool :=
  match e.expiry_override with
  | some d => e.created_at + d ≤ now
  | none =>
      (match cfg.ttl with
       | some l => e.created_at + l ≤ now
       | none => false)
      || (match cfg.tti with
          | some i => e.last_access + i ≤ now
          | none => false)

/-- Look up the entry stored for key `k`, if any. -/
def lookupEntry {K W : Type} [DecidableEq K] :
    EngineState K W → K → Option (Entry W)
  | [], _ => none
  | (k', e) :: rest, k => if k' = k then some e else lookupEntry rest k

/-- Remove any entry stored for key `k`. -/
def removeEntry {K W : Type} [DecidableEq K] :
    EngineState K W → K → EngineState K W
  | [], _ => []
  | (k', e) :: rest, k =>
      if k' = k then removeEntry rest k else (k', e) :: removeEntry rest k

/-- Insert an entry for key `k`, replacing any previous one. -/
def insertEntry {K W : Type} [DecidableEq K] (st : EngineState K W) (k : K)
    (e : Entry W) : EngineState K W :=
  (k, e) :: removeEntry st k

/-- Record an access to key `k` at time `now` (time-to-idle bookkeeping). -/
def touchEntry {K W : Type} [DecidableEq K] :
    EngineState K W → K → Nat → EngineState K W
  | [], _, _ => []
  | (k', e) :: rest, k, now =>
      if k' = k then (k', { e with last_access := now }) :: rest
      else (k', e) :: touchEntry rest k now

/-- Modelled from the spec: the engine's invalidate-by-key operation (spec
section 4.3), reached through `RowCache`'s `Deref` to the inner moka cache
(src/future/cache.rs lines 168-178). -/
def RowCache.invalidate {P K W : Type} [DecidableEq K] (_c : RowCache P K W)
    (st : EngineState K W) (k : K) : EngineState K W :=
  removeEntry st k

/-- Apply the configured per-entry expiry policy at entry creation. -/
def applyExpiry {K W : Type} (cfg : Cache K W) (k : K) (v : Option W)
    (now : Nat) : Option Duration :=
  match cfg.expiry with
  | some f => f k v now
  | none => none

/-! ## `RowCache::try_get` and `RowCache::try_get_by_ref`
(src/future/cache.rs lines 126-136 and 151-165)

The Rust methods call the engine's single-flight primitives `try_get_with`
and `try_get_with_by_ref` with a loader closure that runs the configured
query on the pool, fetches an optional row, and maps a found row through
`W::from`.  One query episode of the backing store is a function
`db : K → Except Err (Option V)`; `wfrom` embeds `W::from`. -/

/-- The loader closure's result translation (src/future/cache.rs line 133):
`.map(|o| o.map(W::from))` applied to the fetch outcome. -/
def loadOutcome {V W Err : Type} (wfrom : V → W)
    (r : Except Err (Option V)) : Except Err (Option W) :=
  match r with
  | .ok o => .ok (o.map wfrom)
  | .error e => .error e

/-- Outcome of one sequential `try_get`-style call: the caller-visible result,
the engine state afterwards, the number of backing-store loads issued, and the
number of owned keys constructed from a borrowed key (0 for `try_get`). -/
structure TryGetResult (K W Err : Type) where
  result : Except Err (Option W)
  state : EngineState K W
  loads : Nat
  owned : Nat

/-- Modelled from the spec: the engine's single-flight load step for one
sequential caller (spec section 4.3): run the loader once; insert its success
result with the policy-derived expiry override; on failure insert nothing. -/
def loadAndStore {P K V W Err : Type} [DecidableEq K] (c : RowCache P K W)
    (wfrom : V → W) (db : K → Except Err (Option V)) (st : EngineState K W)
    (now : Nat) (k : K) (owned : Nat) : TryGetResult K W Err :=
  match loadOutcome wfrom (db k) with
  | .ok v =>
      { result := .ok v,
        state := insertEntry st k
          { value := v, created_at := now, last_access := now,
            expiry_override := applyExpiry c.cache k v now },
        loads := 1, owned := owned }
  | .error e => { result := .error e, state := st, loads := 1, owned := owned }

/-- `RowCache::try_get` (src/future/cache.rs lines 126-136) for one sequential
caller: return a valid cached presence marker directly; otherwise load from
the backing store through the engine's single-flight primitive and cache the
success outcome. -/
def RowCache.try_get {P K V W Err : Type} [DecidableEq K] (c : RowCache P K W)
    (wfrom : V → W) (db : K → Except Err (Option V)) (st : EngineState K W)
    (now : Nat) (k : K) : TryGetResult K W Err :=
  match lookupEntry st k with
  | some e =>
      if e.expired c.cache now then loadAndStore c wfrom db st now k 0
      else { result := .ok e.value, state := touchEntry st k now,
             loads := 0, owned := 0 }
  | none => loadAndStore c wfrom db st now k 0

/-- Look up the entry stored for a key whose borrowed form is `q`
(`moka`'s by-ref lookup through the `Borrow` relation). -/
def lookupEntryByRef {K Q W : Type} [DecidableEq Q] (borrowOf : K → Q) :
    EngineState K W → Q → Option (Entry W)
  | [], _ => none
  | (k', e) :: rest, q =>
      if borrowOf k' = q then some e else lookupEntryByRef borrowOf rest q

/-- As `touchEntry`, addressing the entry by the borrowed form of its key. -/
def touchEntryByRef {K Q W : Type} [DecidableEq Q] (borrowOf : K → Q) :
    EngineState K W → Q → Nat → EngineState K W
  | [], _, _ => []
  | (k', e) :: rest, q, now =>
      if borrowOf k' = q then (k', { e with last_access := now }) :: rest
      else (k', e) :: touchEntryByRef borrowOf rest q now

/-- `RowCache::try_get_by_ref` (src/future/cache.rs lines 151-165) for one
sequential caller: look up by the borrowed key `q`; only on the load path
construct the owned key `toOwned q` (counted in `owned`) to bind the query
and to store the entry. -/
def RowCache.try_get_by_ref {P K Q V W Err : Type} [DecidableEq K]
    [DecidableEq Q] (c : RowCache P K W) (wfrom : V → W) (toOwned : Q → K)
    (borrowOf : K → Q) (db : K → Except Err (Option V)) (st : EngineState K W)
    (now : Nat) (q : Q) : TryGetResult K W Err :=
  match lookupEntryByRef borrowOf st q with
  | some e =>
      if e.expired c.cache now then loadAndStore c wfrom db st now (toOwned q) 1
      else { result := .ok e.value, state := touchEntryByRef borrowOf st q now,
             loads := 0, owned := 0 }
  | none => loadAndStore c wfrom db st now (toOwned q) 1

/-! ## The single-flight miss episode

Modelled from the spec: the engine's load-coalescing protocol for one key
(spec sections 4.3, 5 and 9).  Callers that arrive while no valid entry
exists either start the load (the first one) or attach to the in-flight load;
when the load completes, its outcome is broadcast to every waiter, and only a
success outcome is inserted as an entry. -/

/-- Modelled from the spec: the single-flight state for one key — the stored
entry if any, the number of callers attached to the in-flight load, the
number of loader executions started, and the outcomes delivered to callers
that have finished. -/
structure Episode (W Err : Type) where
  entry : Option (Entry W)
  waiters : Nat
  loadsStarted : Nat
  delivered : List (Except Err (Option W))

/-- The episode for a key with no entry, no in-flight load, no callers. -/
def Episode.init (W Err : Type) : Episode W Err :=
  { entry := none, waiters := 0, loadsStarted := 0, delivered := [] }

/-- Modelled from the spec: one caller arrives at time `now`.  A valid entry
is delivered at once; otherwise the caller starts the load if none is in
flight, or attaches to the in-flight one. -/
def Episode.arrive {K W Err : Type} (cfg : Cache K W) (ep : Episode W Err)
    (now : Nat) : Episode W Err :=
  match ep.entry with
  | some e =>
      if e.expired cfg now then
        if ep.waiters = 0 then
          { ep with waiters := 1, loadsStarted := ep.loadsStarted + 1 }
        else { ep with waiters := ep.waiters + 1 }
      else { ep with delivered := ep.delivered ++ [Except.ok e.value] }
  | none =>
      if ep.waiters = 0 then
        { ep with waiters := 1, loadsStarted := ep.loadsStarted + 1 }
      else { ep with waiters := ep.waiters + 1 }

/-- Modelled from the spec: the in-flight load for key `k` completes at time
`now` with outcome `r`.  The outcome is broadcast to every waiter; a success
is inserted as the entry with its policy-derived expiry override; a failure
inserts nothing. -/
def Episode.complete {K W Err : Type} (cfg : Cache K W) (k : K)
    (ep : Episode W Err) (r : Except Err (Option W)) (now : Nat) :
    Episode W Err :=
  match r with
  | .ok v =>
      { entry := some
          { value := v, created_at := now, last_access := now,
            expiry_override := applyExpiry cfg k v now },
        waiters := 0, loadsStarted := ep.loadsStarted,
        delivered := ep.delivered ++ List.replicate ep.waiters (Except.ok v) }
  | .error e =>
      { ep with
        waiters := 0
        delivered := ep.delivered ++ List.replicate ep.waiters (Except.error e) }

/-- `n` consecutive caller arrivals at time `now`. -/
def Episode.arrivals {K W Err : Type} (cfg : Cache K W) (ep : Episode W Err)
    (now : Nat) : Nat → Episode W Err
  | 0 => ep
  | n + 1 => (Episode.arrivals cfg ep now n).arrive cfg now

/-! ## Helper lemmas -/

theorem lookupEntry_insertEntry_self {K W : Type} [DecidableEq K]
    (st : EngineState K W) (k : K) (e : Entry W) :
    lookupEntry (insertEntry st k e) k = some e := by
  simp [insertEntry, lookupEntry]

theorem lookupEntry_removeEntry_self {K W : Type} [DecidableEq K]
    (st : EngineState K W) (k : K) :
    lookupEntry (removeEntry st k) k = none := by
  induction st with
  | nil => rfl
  | cons p rest ih =>
      obtain ⟨k', e⟩ := p
      by_cases h : k' = k
      · simpa [removeEntry, h] using ih
      · simpa [removeEntry, lookupEntry, h] using ih

theorem loadAndStore_result {P K V W Err : Type} [DecidableEq K]
    (c : RowCache P K W) (wfrom : V → W) (db : K → Except Err (Option V))
    (st : EngineState K W) (now : Nat) (k : K) (o : Nat) :
    (loadAndStore c wfrom db st now k o).result = loadOutcome wfrom (db k) := by
  cases h : loadOutcome wfrom (db k) <;> simp [loadAndStore, h]

theorem loadAndStore_loads {P K V W Err : Type} [DecidableEq K]
    (c : RowCache P K W) (wfrom : V → W) (db : K → Except Err (Option V))
    (st : EngineState K W) (now : Nat) (k : K) (o : Nat) :
    (loadAndStore c wfrom db st now k o).loads = 1 := by
  cases h : loadOutcome wfrom (db k) <;> simp [loadAndStore, h]

theorem loadAndStore_owned {P K V W Err : Type} [DecidableEq K]
    (c : RowCache P K W) (wfrom : V → W) (db : K → Except Err (Option V))
    (st : EngineState K W) (now : Nat) (k : K) (o : Nat) :
    (loadAndStore c wfrom db st now k o).owned = o := by
  cases h : loadOutcome wfrom (db k) <;> simp [loadAndStore, h]

theorem loadAndStore_state {P K V W Err : Type} [DecidableEq K]
    (c : RowCache P K W) (wfrom : V → W) (db : K → Except Err (Option V))
    (st : EngineState K W) (now : Nat) (k : K) (o o' : Nat) :
    (loadAndStore c wfrom db st now k o).state
      = (loadAndStore c wfrom db st now k o').state := by
  cases h : loadOutcome wfrom (db k) <;> simp [loadAndStore, h]

/-- After `n ≥ 1` caller arrivals for a key with no entry and no in-flight
load, exactly one load has been started, all `n` callers are attached to it,
and nothing has been delivered yet. -/
theorem arrivals_init {K W Err : Type} (cfg : Cache K W) (now : Nat) :
    ∀ n : Nat, 1 ≤ n →
      Episode.arrivals cfg (Episode.init W Err) now n
        = { entry := none, waiters := n, loadsStarted := 1, delivered := [] }
  | 0, h => absurd h (by omega)
  | 1, _ => by
      simp [Episode.arrivals, Episode.arrive, Episode.init]
  | n + 2, _ => by
      rw [Episode.arrivals, arrivals_init cfg now (n + 1) (by omega)]
      simp [Episode.arrive]

/-! ## Claim theorems -/

/-- C5: for every key `k` that has a valid (unexpired) cache entry,
`try_get(k)` returns that entry's value directly — `Ok(Some(w))` for a
present entry and `Ok(None)` for an absent entry — without invoking the
backing-store load closure. -/
theorem hit_fast_path {P K V W Err : Type} [DecidableEq K]
    (c : RowCache P K W) (wfrom : V → W) (db : K → Except Err (Option V))
    (st : EngineState K W) (now : Nat) (k : K) (ent : Entry W)
    (hent : lookupEntry st k = some ent)
    (hvalid : ent.expired c.cache now = false) :
    (c.try_get wfrom db st now k).result = Except.ok ent.value
    ∧ (c.try_get wfrom db st now k).loads = 0 := by
  simp [RowCache.try_get, hent, hvalid]

/-- C5 witness: a present entry for key 1, unexpired, is returned with no
load. -/
theorem hit_fast_path_witness :
    lookupEntry [(1, Entry.mk (some 7) 0 0 none)] 1
      = some (Entry.mk (some 7) 0 0 none)
    ∧ Entry.expired
        (RowCacheBuilder.for_query (P := Unit) (K := Nat) (W := Nat)
          512 () "q").build.cache (Entry.mk (some 7) 0 0 none) 5 = false
    ∧ ((RowCacheBuilder.for_query (P := Unit) (K := Nat) (W := Nat)
          512 () "q").build.try_get (fun v : Nat => v)
          (fun _ => (Except.error () : Except Unit (Option Nat)))
          [(1, Entry.mk (some 7) 0 0 none)] 5 1).result = Except.ok (some 7) :=
  ⟨rfl, rfl,
    (hit_fast_path
      (RowCacheBuilder.for_query (P := Unit) (K := Nat) (W := Nat)
        512 () "q").build (fun v : Nat => v)
      (fun _ => (Except.error () : Except Unit (Option Nat)))
      [(1, Entry.mk (some 7) 0 0 none)] 5 1 (Entry.mk (some 7) 0 0 none)
      rfl rfl).1⟩

/-- C7: invalidating `k` removes its cache entry regardless of variant and
expiry state (the lookup afterwards finds nothing, for every prior state),
and the next `try_get(k)` re-queries the backing store through the
single-flight load path: exactly one load is issued and its outcome is the
backing store's answer. -/
theorem invalidate_then_reload {P K V W Err : Type} [DecidableEq K]
    (c : RowCache P K W) (wfrom : V → W) (db : K → Except Err (Option V))
    (st : EngineState K W) (now : Nat) (k : K) :
    lookupEntry (c.invalidate st k) k = none
    ∧ (c.try_get wfrom db (c.invalidate st k) now k).loads = 1
    ∧ (c.try_get wfrom db (c.invalidate st k) now k).result
        = loadOutcome wfrom (db k) := by
  have hz : lookupEntry (c.invalidate st k) k = none :=
    lookupEntry_removeEntry_self st k
  refine ⟨hz, ?_, ?_⟩
  · simp [RowCache.try_get, hz, loadAndStore_loads]
  · simp [RowCache.try_get, hz, loadAndStore_result]

/-- C8: the expiry policy is a pure function whose result depends only on
whether the entry value is present or absent: for a fixed policy object, any
two invocations on values of the same variant — across any key types, value
types, keys and creation times — return the same duration. -/
theorem expiry_policy_pure {K₁ K₂ W₁ W₂ : Type} (e : DefaultExpiry)
    (k₁ : K₁) (k₂ : K₂) (v₁ : Option W₁) (v₂ : Option W₂) (t₁ t₂ : Nat)
    (h : v₁.isSome = v₂.isSome) :
    e.expire_after_create k₁ v₁ t₁ = e.expire_after_create k₂ v₂ t₂ := by
  cases v₁ <;> cases v₂ <;> simp_all [DefaultExpiry.expire_after_create]

/-- C8 witness: same-variant invocations with different keys, value types and
times agree. -/
theorem expiry_policy_pure_witness :
    (some 3 : Option Nat).isSome = (some "x" : Option String).isSome
    ∧ DefaultExpiry.default.expire_after_create (5 : Nat) (some 3 : Option Nat) 0
        = DefaultExpiry.default.expire_after_create "k" (some "x" : Option String) 99 :=
  ⟨rfl, expiry_policy_pure DefaultExpiry.default 5 "k" (some 3) (some "x") 0 99 rfl⟩

/-- C9: `time_to_live_for_none` replaces the builder's entire per-entry
expiry object: `b.expire_after(e).time_to_live_for_none(d)` builds the same
cache configuration as `b.time_to_live_for_none(d)` (the custom expiry is
discarded), and symmetrically a later `expire_after(e)` discards a previously
set `time_to_live_for_none` duration — the last of the two calls wins. -/
theorem ttl_for_none_replaces_expiry {P K W : Type} (b : RowCacheBuilder P K W)
    (e : K → Option W → Nat → Option Duration) (d : Duration) :
    ((b.expire_after e).time_to_live_for_none d).build
        = (b.time_to_live_for_none d).build
    ∧ ((b.time_to_live_for_none d).expire_after e).build
        = (b.expire_after e).build := by
  exact ⟨rfl, rfl⟩

/-- C1: for a key with no prior entry, `try_get(k)` returns `Ok(Some(w))`
with `w` the `W::from`-wrapped row when the backing-store query finds one,
`Ok(None)` when the query finds no row (absence is a success value, never an
error), and `Err e` exactly when the query fails with `e`; and the
immediately subsequent call (the hit side) returns the same outcome. -/
theorem try_get_cache_aside {P K V W Err : Type} [DecidableEq K]
    (c : RowCache P K W) (wfrom : V → W) (db : K → Except Err (Option V))
    (st : EngineState K W) (now : Nat) (k : K)
    (hfresh : lookupEntry st k = none) :
    ((∀ v, db k = Except.ok (some v) →
        (c.try_get wfrom db st now k).result = Except.ok (some (wfrom v)))
      ∧ (db k = Except.ok none →
        (c.try_get wfrom db st now k).result = Except.ok none)
      ∧ (∀ e, (c.try_get wfrom db st now k).result = Except.error e ↔
          db k = Except.error e))
    ∧ (c.try_get wfrom db (c.try_get wfrom db st now k).state now k).result
        = (c.try_get wfrom db st now k).result := by
  have h1 : c.try_get wfrom db st now k = loadAndStore c wfrom db st now k 0 := by
    simp [RowCache.try_get, hfresh]
  refine ⟨⟨?_, ?_, ?_⟩, ?_⟩
  · intro v hv
    rw [h1]
    simp [loadAndStore, loadOutcome, hv]
  · intro hv
    rw [h1]
    simp [loadAndStore, loadOutcome, hv]
  · intro e
    rw [h1, loadAndStore_result]
    cases hdb : db k <;> simp [loadOutcome]
  · rw [h1]
    cases hdb : db k with
    | error e =>
        simp [loadAndStore, loadOutcome, hdb, RowCache.try_get, hfresh]
    | ok v =>
        simp only [loadAndStore, loadOutcome, hdb]
        simp only [RowCache.try_get, lookupEntry_insertEntry_self]
        split
        · rw [loadAndStore_result]
          simp [loadOutcome, hdb]
        · rfl

/-- C1 witness: from an empty cache, a found row is wrapped and returned, and
the follow-up call agrees. -/
theorem try_get_cache_aside_witness :
    lookupEntry ([] : EngineState Nat Nat) 1 = none
    ∧ ((RowCacheBuilder.for_query (P := Unit) (K := Nat) (W := Nat)
          512 () "q").build.try_get (fun v : Nat => v + 100)
          (fun _ => (Except.ok (some 5) : Except Unit (Option Nat)))
          ([] : EngineState Nat Nat) 0 1).result = Except.ok (some 105) :=
  ⟨rfl,
    ((try_get_cache_aside
        (RowCacheBuilder.for_query (P := Unit) (K := Nat) (W := Nat)
          512 () "q").build (fun v : Nat => v + 100)
        (fun _ => (Except.ok (some 5) : Except Unit (Option Nat)))
        ([] : EngineState Nat Nat) 0 1 rfl).1.1 5 rfl)⟩

/-- C3: when the backing-store load for `k` fails, the error is surfaced, no
entry for `k` is inserted (the engine state is unchanged, so the key still
has no entry), the immediately following `try_get(k)` re-attempts the load,
and in the single-flight episode the same shared error is delivered to every
one of the `n` callers waiting on the in-flight load while the key's entry
stays empty. -/
theorem failure_not_cached {P K V W Err : Type} [DecidableEq K]
    (c : RowCache P K W) (wfrom : V → W) (db : K → Except Err (Option V))
    (st : EngineState K W) (now now₂ : Nat) (k : K) (err : Err) (n : Nat)
    (hfresh : lookupEntry st k = none) (hdb : db k = Except.error err)
    (hn : 1 ≤ n) :
    (c.try_get wfrom db st now k).result = Except.error err
    ∧ (c.try_get wfrom db st now k).state = st
    ∧ (c.try_get wfrom db (c.try_get wfrom db st now k).state now₂ k).loads = 1
    ∧ (c.try_get wfrom db (c.try_get wfrom db st now k).state now₂ k).result
        = Except.error err
    ∧ (Episode.complete c.cache k
        (Episode.arrivals c.cache (Episode.init W Err) now n)
        (Except.error err) now₂).entry = none
    ∧ (Episode.complete c.cache k
        (Episode.arrivals c.cache (Episode.init W Err) now n)
        (Except.error err) now₂).delivered
        = List.replicate n (Except.error err) := by
  have h1 : c.try_get wfrom db st now k = loadAndStore c wfrom db st now k 0 := by
    simp [RowCache.try_get, hfresh]
  have hload : loadAndStore c wfrom db st now k 0
      = { result := Except.error err, state := st, loads := 1, owned := 0 } := by
    simp [loadAndStore, loadOutcome, hdb]
  rw [h1, hload]
  rw [arrivals_init c.cache now n hn]
  refine ⟨rfl, rfl, ?_, ?_, ?_, ?_⟩
  · simp [RowCache.try_get, hfresh, loadAndStore_loads]
  · simp [RowCache.try_get, hfresh, loadAndStore_result, loadOutcome, hdb]
  · simp [Episode.complete]
  · simp [Episode.complete]

/-- C3 witness: a failing load for a fresh key surfaces the error, caches
nothing, and the 3-waiter episode broadcasts the same error to all three. -/
theorem failure_not_cached_witness :
    lookupEntry ([] : EngineState Nat Nat) 1 = none
    ∧ (fun _ : Nat => (Except.error 7 : Except Nat (Option Nat))) 1
        = Except.error 7
    ∧ (1 : Nat) ≤ 3
    ∧ ((RowCacheBuilder.for_query (P := Unit) (K := Nat) (W := Nat)
          512 () "q").build.try_get (fun v : Nat => v)
          (fun _ => (Except.error 7 : Except Nat (Option Nat)))
          ([] : EngineState Nat Nat) 0 1).state = [] :=
  ⟨rfl, rfl, by decide,
    (failure_not_cached
      (RowCacheBuilder.for_query (P := Unit) (K := Nat) (W := Nat)
        512 () "q").build (fun v : Nat => v)
      (fun _ => (Except.error 7 : Except Nat (Option Nat)))
      ([] : EngineState Nat Nat) 0 2 1 7 3 rfl rfl (by decide)).2.1⟩

/-- C4: for a never-before-seen key, `n ≥ 1` concurrent callers in one miss
episode cause exactly one execution of the backing-store load closure, and
all `n` callers are delivered the same resolved outcome (the wrapped value,
the absence, or the shared error, as the loader's outcome dictates). -/
theorem single_flight_once {P K V W Err : Type} [DecidableEq K]
    (c : RowCache P K W) (wfrom : V → W) (db : K → Except Err (Option V))
    (k : K) (now now₂ : Nat) (n : Nat) (hn : 1 ≤ n) :
    (Episode.complete c.cache k
        (Episode.arrivals c.cache (Episode.init W Err) now n)
        (loadOutcome wfrom (db k)) now₂).loadsStarted = 1
    ∧ (Episode.complete c.cache k
        (Episode.arrivals c.cache (Episode.init W Err) now n)
        (loadOutcome wfrom (db k)) now₂).delivered
        = List.replicate n (loadOutcome wfrom (db k)) := by
  rw [arrivals_init c.cache now n hn]
  cases h : loadOutcome wfrom (db k) <;> simp [Episode.complete]

/-- C4 witness: three concurrent callers for a fresh key trigger one load and
all receive the same wrapped value. -/
theorem single_flight_once_witness :
    (1 : Nat) ≤ 3
    ∧ (Episode.complete
        (RowCacheBuilder.for_query (P := Unit) (K := Nat) (W := Nat)
          512 () "q").build.cache 1
        (Episode.arrivals
          (RowCacheBuilder.for_query (P := Unit) (K := Nat) (W := Nat)
            512 () "q").build.cache (Episode.init Nat Unit) 0 3)
        (loadOutcome (fun v : Nat => v + 100)
          ((fun _ : Nat => (Except.ok (some 5) : Except Unit (Option Nat))) 1))
        2).loadsStarted = 1 :=
  ⟨by decide,
    (single_flight_once
      (RowCacheBuilder.for_query (P := Unit) (K := Nat) (W := Nat)
        512 () "q").build (fun v : Nat => v + 100)
      (fun _ => (Except.ok (some 5) : Except Unit (Option Nat)))
      1 0 2 3 (by decide)).1⟩

/-- Under the `Borrow`/`ToOwned` contract for the looked-up key, the by-ref
lookup agrees with the owned-key lookup. -/
theorem lookupEntryByRef_eq {K Q W : Type} [DecidableEq K] [DecidableEq Q]
    (borrowOf : K → Q) (toOwned : Q → K) (q : Q)
    (hlaw : ∀ k' : K, borrowOf k' = q ↔ k' = toOwned q) :
    ∀ st : EngineState K W,
      lookupEntryByRef borrowOf st q = lookupEntry st (toOwned q)
  | [] => rfl
  | (k', e) :: rest => by
      by_cases h : borrowOf k' = q
      · rw [lookupEntryByRef, lookupEntry, if_pos h, if_pos ((hlaw k').mp h)]
      · rw [lookupEntryByRef, lookupEntry, if_neg h,
          if_neg (fun hh => h ((hlaw k').mpr hh)),
          lookupEntryByRef_eq borrowOf toOwned q hlaw rest]

/-- Under the `Borrow`/`ToOwned` contract for the looked-up key, the by-ref
access-time update agrees with the owned-key one. -/
theorem touchEntryByRef_eq {K Q W : Type} [DecidableEq K] [DecidableEq Q]
    (borrowOf : K → Q) (toOwned : Q → K) (q : Q) (now : Nat)
    (hlaw : ∀ k' : K, borrowOf k' = q ↔ k' = toOwned q) :
    ∀ st : EngineState K W,
      touchEntryByRef borrowOf st q now = touchEntry st (toOwned q) now
  | [] => rfl
  | (k', e) :: rest => by
      by_cases h : borrowOf k' = q
      · rw [touchEntryByRef, touchEntry, if_pos h, if_pos ((hlaw k').mp h)]
      · rw [touchEntryByRef, touchEntry, if_neg h,
          if_neg (fun hh => h ((hlaw k').mpr hh)),
          touchEntryByRef_eq borrowOf toOwned q now hlaw rest]

/-- C6: under the `Borrow`/`ToOwned` contract relating the borrowed key `q`
to its owned form, `try_get_by_ref(&q)` has semantics identical to
`try_get(q.to_owned())` — the same result, the same engine state, the same
number of loads in the hit, miss, and failure cases — and the owned key is
constructed from `q` exactly as many times as a backing-store load is
issued, so never on the hit path. -/
theorem by_ref_equiv {P K Q V W Err : Type} [DecidableEq K] [DecidableEq Q]
    (c : RowCache P K W) (wfrom : V → W) (toOwned : Q → K) (borrowOf : K → Q)
    (db : K → Except Err (Option V)) (st : EngineState K W) (now : Nat)
    (q : Q) (hlaw : ∀ k' : K, borrowOf k' = q ↔ k' = toOwned q) :
    (c.try_get_by_ref wfrom toOwned borrowOf db st now q).result
        = (c.try_get wfrom db st now (toOwned q)).result
    ∧ (c.try_get_by_ref wfrom toOwned borrowOf db st now q).state
        = (c.try_get wfrom db st now (toOwned q)).state
    ∧ (c.try_get_by_ref wfrom toOwned borrowOf db st now q).loads
        = (c.try_get wfrom db st now (toOwned q)).loads
    ∧ (c.try_get_by_ref wfrom toOwned borrowOf db st now q).owned
        = (c.try_get_by_ref wfrom toOwned borrowOf db st now q).loads := by
  have hlk := lookupEntryByRef_eq (W := W) borrowOf toOwned q hlaw st
  have htc := touchEntryByRef_eq (W := W) borrowOf toOwned q now hlaw st
  cases hent : lookupEntry st (toOwned q) with
  | none =>
      simp only [RowCache.try_get_by_ref, RowCache.try_get, hlk, htc, hent]
      exact ⟨(loadAndStore_result ..).trans (loadAndStore_result ..).symm,
        loadAndStore_state ..,
        by rw [loadAndStore_loads, loadAndStore_loads],
        by rw [loadAndStore_owned, loadAndStore_loads]⟩
  | some e =>
      by_cases hexp : e.expired c.cache now
      · simp only [RowCache.try_get_by_ref, RowCache.try_get, hlk, htc, hent,
          hexp, if_true]
        exact ⟨(loadAndStore_result ..).trans (loadAndStore_result ..).symm,
          loadAndStore_state ..,
          by rw [loadAndStore_loads, loadAndStore_loads],
          by rw [loadAndStore_owned, loadAndStore_loads]⟩
      · rw [Bool.not_eq_true] at hexp
        simp [RowCache.try_get_by_ref, RowCache.try_get, hlk, htc, hent, hexp]

/-- C6 witness: with `Nat` keys borrowed as themselves, the by-ref call
matches the owned call and constructs no owned key on a hit. -/
theorem by_ref_equiv_witness :
    ((RowCacheBuilder.for_query (P := Unit) (K := Nat) (W := Nat)
          512 () "q").build.try_get_by_ref (fun v : Nat => v)
          (fun x : Nat => x) (fun x : Nat => x)
          (fun _ => (Except.ok (some 5) : Except Unit (Option Nat)))
          [(1, Entry.mk (some 7) 0 0 none)] 4 1).owned
        = ((RowCacheBuilder.for_query (P := Unit) (K := Nat) (W := Nat)
          512 () "q").build.try_get_by_ref (fun v : Nat => v)
          (fun x : Nat => x) (fun x : Nat => x)
          (fun _ => (Except.ok (some 5) : Except Unit (Option Nat)))
          [(1, Entry.mk (some 7) 0 0 none)] 4 1).loads :=
  (by_ref_equiv
      (RowCacheBuilder.for_query (P := Unit) (K := Nat) (W := Nat)
        512 () "q").build (fun v : Nat => v) (fun x : Nat => x)
      (fun x : Nat => x)
      (fun _ => (Except.ok (some 5) : Except Unit (Option Nat)))
      [(1, Entry.mk (some 7) 0 0 none)] 4 1
      (fun _ => Iff.rfl)).2.2.2

/-- C2: the expiry policy evaluated at entry creation returns no TTL override
for every present value (deferring to the cache-wide TTL/TTI rules) and the
configured negative-cache duration for every absent value; a builder on which
`time_to_live_for_none` was never called carries `DefaultExpiry::default()`,
whose duration is 60 seconds; and on a cache built with present-entry
lifetimes `L` (TTL) and `I` (TTI) both longer than the absent lifetime `d`,
an absent entry loaded at `t0` is gone at `t0 + d` — the next `try_get`
issues a load — while a present entry created at `t0` would not yet have
expired at that time. -/
theorem differentiated_expiry {P K V W Err : Type} [DecidableEq K]
    (cap : Nat) (pool : P) (qs : String) (L I d : Duration)
    (c : RowCache P K W) (wfrom : V → W) (db : K → Except Err (Option V))
    (st : EngineState K W) (t0 : Nat) (k : K) (w : W)
    (hc : c = RowCacheBuilder.build
      ((((RowCacheBuilder.for_query (P := P) (K := K) (W := W) cap pool
        qs).time_to_live L).time_to_idle I).time_to_live_for_none d))
    (hfresh : lookupEntry st k = none) (hdb : db k = Except.ok none)
    (hdL : d < L) (hdI : d < I) :
    (∀ (e : DefaultExpiry) (k' : K) (t : Nat) (w' : W),
        e.expire_after_create k' (some w') t = none)
    ∧ (∀ (e : DefaultExpiry) (k' : K) (t : Nat),
        e.expire_after_create (W := W) k' none t = some e.ttl_for_none)
    ∧ (RowCacheBuilder.for_query (P := P) (K := K) (W := W) cap pool
        qs).build.cache.expiry = some DefaultExpiry.default.expire_after_create
    ∧ DefaultExpiry.default.ttl_for_none = Duration.from_secs 60
    ∧ (c.try_get wfrom db st t0 k).result = Except.ok none
    ∧ (c.try_get wfrom db (c.try_get wfrom db st t0 k).state (t0 + d) k).loads
        = 1
    ∧ Entry.expired c.cache
        { value := some w, created_at := t0, last_access := t0,
          expiry_override := applyExpiry c.cache k (some w) t0 } (t0 + d)
        = false := by
  subst hc
  have hcfg : (RowCacheBuilder.build
      ((((RowCacheBuilder.for_query (P := P) (K := K) (W := W) cap pool
        qs).time_to_live L).time_to_idle I).time_to_live_for_none d)).cache
      = { max_capacity := cap, ttl := some L, tti := some I,
          expiry := some (DefaultExpiry.new d).expire_after_create } := rfl
  have h1 : (RowCacheBuilder.build
      ((((RowCacheBuilder.for_query (P := P) (K := K) (W := W) cap pool
        qs).time_to_live L).time_to_idle I).time_to_live_for_none d)).try_get
      wfrom db st t0 k
      = { result := Except.ok none,
          state := insertEntry st k
            { value := none, created_at := t0, last_access := t0,
              expiry_override := some d },
          loads := 1, owned := 0 } := by
    simp [RowCache.try_get, hfresh, loadAndStore, loadOutcome, hdb, hcfg,
      applyExpiry, DefaultExpiry.expire_after_create, DefaultExpiry.new]
  refine ⟨fun e k' t w' => rfl, fun e k' t => rfl, rfl, rfl, ?_, ?_, ?_⟩
  · rw [h1]
  · rw [h1]
    simp [RowCache.try_get, lookupEntry_insertEntry_self, Entry.expired,
      loadAndStore_loads]
  · rw [hcfg]
    simp [applyExpiry, DefaultExpiry.expire_after_create, Entry.expired]
    exact ⟨hdL, hdI⟩

/-- C2 witness: with `L = 3`, `I = 2`, `d = 1`, an absent entry loaded at
time 0 triggers a reload at time 1. -/
theorem differentiated_expiry_witness :
    lookupEntry ([] : EngineState Nat Nat) 0 = none
    ∧ (fun _ : Nat => (Except.ok none : Except Unit (Option Nat))) 0
        = Except.ok none
    ∧ (1 : Duration) < 3
    ∧ (1 : Duration) < 2
    ∧ ((RowCacheBuilder.build
        ((((RowCacheBuilder.for_query (P := Unit) (K := Nat) (W := Nat)
          512 () "q").time_to_live 3).time_to_idle 2).time_to_live_for_none
          1)).try_get (fun v : Nat => v)
        (fun _ => (Except.ok none : Except Unit (Option Nat)))
        ((RowCacheBuilder.build
          ((((RowCacheBuilder.for_query (P := Unit) (K := Nat) (W := Nat)
            512 () "q").time_to_live 3).time_to_idle 2).time_to_live_for_none
            1)).try_get (fun v : Nat => v)
          (fun _ => (Except.ok none : Except Unit (Option Nat)))
          ([] : EngineState Nat Nat) 0 0).state (0 + 1) 0).loads = 1 :=
  ⟨rfl, rfl, by decide, by decide,
    (differentiated_expiry 512 () "q" 3 2 1
      (RowCacheBuilder.build
        ((((RowCacheBuilder.for_query (P := Unit) (K := Nat) (W := Nat)
          512 () "q").time_to_live 3).time_to_idle 2).time_to_live_for_none 1))
      (fun v : Nat => v)
      (fun _ => (Except.ok none : Except Unit (Option Nat)))
      ([] : EngineState Nat Nat) 0 0 0 rfl rfl rfl (by decide)
      (by decide)).2.2.2.2.2.1⟩

/-- C10: `RowCacheBuilder::for_table` renders its positional format template
to exactly `SELECT * FROM {Q}t{Q} WHERE {Q}c{Q} = {P}` where `Q` and `P` are
the database's `QUOTE` and `PLACEHOLDER` constants, and
`RowCacheBuilder::new(cap, pool, t)` equals
`RowCacheBuilder::for_table(cap, pool, t, "id")`. -/
theorem for_table_query_format {P K W : Type} (DB : QueryBuilder) (cap : Nat)
    (pool : P) (t c : String) :
    (RowCacheBuilder.for_table (P := P) (K := K) (W := W)
        DB cap pool t c).query
      = "SELECT * FROM " ++ DB.QUOTE ++ t ++ DB.QUOTE ++ " WHERE "
        ++ DB.QUOTE ++ c ++ DB.QUOTE ++ " = " ++ DB.PLACEHOLDER
    ∧ RowCacheBuilder.new (P := P) (K := K) (W := W) DB cap pool t
      = RowCacheBuilder.for_table (P := P) (K := K) (W := W)
          DB cap pool t "id" := by
  constructor
  · have hrender : renderFormatChars [t, c, DB.QUOTE, DB.PLACEHOLDER]
        forTableTemplate
        = "SELECT * FROM ".data ++ (DB.QUOTE.data ++ (t.data
          ++ (DB.QUOTE.data ++ (" WHERE ".data ++ (DB.QUOTE.data
          ++ (c.data ++ (DB.QUOTE.data ++ (" = ".data
          ++ (DB.PLACEHOLDER.data ++ []))))))))) := rfl
    apply String.ext
    show renderFormatChars [t, c, DB.QUOTE, DB.PLACEHOLDER] forTableTemplate
      = _
    rw [hrender]
    simp [String.data_append, List.append_assoc]
  · rfl

end MokaMore
